import Mathlib

/-!
Gazebo / MAVLink hardware-in-the-loop bridge.

A shallow embedding of `src/gazebo_mavlink_interface.cpp`.

Conventions of the embedding.

* The object state `GazeboMavlinkInterface` is passed explicitly; every member
  function returns the new state together with the list of messages it handed
  to a transport (`Published`), in program order.
* `double` arithmetic is idealised as exact arithmetic in an ordered field `α`
  (instantiated with `ℚ` for evaluation and with `ℝ` where `atan2` is needed).
  The `float` constants of the source enter with their single-precision
  values.
* A floating value stored into an integer field of a MAVLink structure is
  converted as the usual x86-64 targets do: truncation towards zero into 32
  bits (`to_int32`, `0x80000000` when the value does not fit) and reduction to
  the width of the field (`to_int16`, `to_uint16`).  The integer parameters of
  the generated setters of the structured messages are declared outside the
  source tree; there the conversion is plain truncation (`to_integer`).
* Bytes are natural numbers below 256, 16-bit checksums natural numbers below
  65536; every narrowing store of the source is an explicit `%`.
* Functions of the simulation engine, of libm and of the MAVLink C library
  that the source calls but does not define are collected in `Deps`.
-/

namespace gazebo

/-! ## Engine value types -/

/-- Engine type `math::Vector3`. -/
structure math.Vector3 (α : Type) where
  x : α
  y : α
  z : α

/-- Engine type `math::Quaternion`. -/
structure math.Quaternion (α : Type) where
  w : α
  x : α
  y : α
  z : α

/-- Engine type `common::Time`: whole seconds and nanoseconds within the second. -/
structure common.Time where
  sec : Int
  nsec : Int
deriving DecidableEq, Repr

/-- The instant denoted by a time value, in nanoseconds. -/
def common.Time.toNs (t : common.Time) : Int :=
  t.sec * 1000000000 + t.nsec

/-- The normalised time value (`0 ≤ nsec < 10^9`) of an instant given in nanoseconds. -/
def common.Time.ofNs (n : Int) : common.Time :=
  { sec := n / 1000000000, nsec := n % 1000000000 }

/-- Engine `Time::operator-`: the difference of the two instants, normalised. -/
def common.Time.sub (a b : common.Time) : common.Time :=
  common.Time.ofNs (a.toNs - b.toNs)

/-- Engine `Time::operator>`: lexicographic on `(sec, nsec)`. -/
def common.Time.gt (a b : common.Time) : Bool :=
  decide (b.sec < a.sec ∨ (a.sec = b.sec ∧ b.nsec < a.nsec))

/-! ## Machine integers -/

/-- Reduction of an integer to the 32-bit two-complement range, the result of
an `int` product that leaves the range on the usual targets. -/
def int32_wrap (x : Int) : Int :=
  (x + 2147483648) % 4294967296 - 2147483648

/-- Conversion of a signed integer to `uint64_t`. -/
def uint64_wrap (x : Int) : Int :=
  x % 18446744073709551616

/-- The expression `t.nsec*1000` stored into a `uint64_t time_usec` field:
`nsec` is the 32-bit nanosecond member of `common::Time`, so the product is an
`int` product; the seconds member does not occur. -/
def hil_time_usec (t : common.Time) : Int :=
  uint64_wrap (int32_wrap (t.nsec * 1000))

/-- Implicit conversion of a floating value to an integer field: truncation
towards zero. -/
def to_integer {α : Type} [LinearOrderedField α] [FloorRing α] (x : α) : Int :=
  if 0 ≤ x then ⌊x⌋ else ⌈x⌉

/-- Conversion of a `double` to `int32_t`: truncation towards zero; a value
outside the range yields `0x80000000`, the result of the x86-64 conversion
instruction. -/
def to_int32 {α : Type} [LinearOrderedField α] [FloorRing α] (x : α) : Int :=
  if -2147483649 < x ∧ x < 2147483648 then to_integer x else -2147483648

/-- Conversion of a `double` to `int16_t`: the 32-bit conversion reduced to the
low 16 bits, read as a signed number. -/
def to_int16 {α : Type} [LinearOrderedField α] [FloorRing α] (x : α) : Int :=
  (to_int32 x + 32768) % 65536 - 32768

/-- Conversion of a `double` to `uint16_t`: the 32-bit conversion reduced to the
low 16 bits. -/
def to_uint16 {α : Type} [LinearOrderedField α] [FloorRing α] (x : α) : Int :=
  to_int32 x % 65536

/-! ## MAVLink framing -/

/-- Modelled from the spec: the frame start byte `0xFE` (macro `MAVLINK_STX` of
the MAVLink headers, which are not in the source tree). -/
def MAVLINK_STX : Nat := 254

/-- Modelled from the spec: bytes after the start byte in the header,
`[len][seq][sys_id][comp_id][msg_id]` (macro `MAVLINK_CORE_HEADER_LEN`). -/
def MAVLINK_CORE_HEADER_LEN : Nat := 5

/-- Modelled from the spec: header length including the start byte (macro
`MAVLINK_NUM_HEADER_BYTES`). -/
def MAVLINK_NUM_HEADER_BYTES : Nat := MAVLINK_CORE_HEADER_LEN + 1

/-- Modelled from the spec: the two trailer bytes `[crc_lo][crc_hi]` (macro
`MAVLINK_NUM_CHECKSUM_BYTES`). -/
def MAVLINK_NUM_CHECKSUM_BYTES : Nat := 2

/-- Modelled from the spec: header plus trailer (macro
`MAVLINK_NUM_NON_PAYLOAD_BYTES`). -/
def MAVLINK_NUM_NON_PAYLOAD_BYTES : Nat :=
  MAVLINK_NUM_HEADER_BYTES + MAVLINK_NUM_CHECKSUM_BYTES

/-- Modelled from the spec: message id of HIL_CONTROLS. -/
def MAVLINK_MSG_ID_HIL_CONTROLS : Nat := 91

/-- Modelled from the spec: message id of HIL_SENSOR. -/
def MAVLINK_MSG_ID_HIL_SENSOR : Nat := 107

/-- Modelled from the spec: message id of HIL_GPS. -/
def MAVLINK_MSG_ID_HIL_GPS : Nat := 113

/-- Modelled from the spec: initial value `0xFFFF` of the CRC-16/MCRF4XX
accumulator (macro `X25_INIT_CRC` of the MAVLink checksum header). -/
def X25_INIT_CRC : Nat := 0xffff

/-- Modelled from the spec: `crc_init` of the MAVLink checksum header, which
stores the initial value into the accumulator. -/
def crc_init : Nat := X25_INIT_CRC

/-- Modelled from the spec: `crc_accumulate(data, &crcAccum)` of the MAVLink
checksum header, one byte step of CRC-16/MCRF4XX:
`tmp = data ^ (uint8_t)(crc & 0xff); tmp ^= (tmp << 4);`
`crc = (crc >> 8) ^ (tmp << 8) ^ (tmp << 3) ^ (tmp >> 4)`,
with `tmp` an 8-bit and `crc` a 16-bit variable. -/
def crc_accumulate (data crcAccum : Nat) : Nat :=
  let tmp := (data ^^^ (crcAccum &&& 0xff)) % 256
  let tmp := (tmp ^^^ (tmp <<< 4)) % 256
  ((crcAccum >>> 8) ^^^ (tmp <<< 8) ^^^ (tmp <<< 3) ^^^ (tmp >>> 4)) % 65536

/-- Modelled from the spec: `crc_accumulate_buffer(&crcAccum, pBuffer, length)`
of the MAVLink checksum header: `crc_accumulate` over the first `length` bytes
of the buffer, in order. -/
def crc_accumulate_buffer (crcAccum : Nat) (pBuffer : List Nat) (length : Nat) : Nat :=
  (pBuffer.take length).foldl (fun crc data => crc_accumulate data crc) crcAccum

set_option linter.unusedVariables false in
/-- Source `GazeboMavlinkInterface::send_mavlink_message(msgid, msg, component_ID)`.
The two tables are the `uint8_t` arrays `mavlink_message_lengths` and
`mavlink_message_crcs`; `msg` is the memory image of the message structure.
The result is the datagram `buf[0 .. packet_len)` handed to `sendto`. -/
def send_mavlink_message (mavlink_message_lengths mavlink_message_crcs : Nat → Nat)
    (msgid : Nat) (msg : List Nat) (component_ID : Nat) : List Nat :=
  let msgid := msgid % 256
  let component_ID := 0
  let payload_len := mavlink_message_lengths msgid % 256
  let packet_len := payload_len + MAVLINK_NUM_NON_PAYLOAD_BYTES
  -- header
  let buf := [MAVLINK_STX, payload_len, 100, 0, component_ID, msgid]
  -- payload
  let buf := buf ++ msg.take payload_len
  -- checksum
  let checksum := crc_init
  let checksum :=
    crc_accumulate_buffer checksum (buf.drop 1) (MAVLINK_CORE_HEADER_LEN + payload_len)
  let checksum := crc_accumulate (mavlink_message_crcs msgid % 256) checksum
  let buf := buf ++ [(checksum &&& 0xFF) % 256, (checksum >>> 8) % 256]
  buf.take packet_len

/-- Modelled from the spec: the checksum a receiver recomputes for a datagram
holding one frame, over the bytes from the length byte through the end of the
payload and then the seed constant of the message id found in byte 5. -/
def frame_recomputed_crc (mavlink_message_crcs : Nat → Nat) (frame : List Nat) : Nat :=
  crc_accumulate (mavlink_message_crcs (frame.getD 5 0) % 256)
    (crc_accumulate_buffer crc_init (frame.drop 1)
      (frame.length - 1 - MAVLINK_NUM_CHECKSUM_BYTES))

/-- Modelled from the spec: the receiver keeps a frame only when the recomputed
checksum equals the trailer, low byte first. -/
def frame_accepted (mavlink_message_crcs : Nat → Nat) (frame : List Nat) : Bool :=
  let crc := frame_recomputed_crc mavlink_message_crcs frame
  frame.getD (frame.length - 2) 0 == crc % 256 &&
    frame.getD (frame.length - 1) 0 == crc / 256

/-- The last line of `crc_accumulate` without the old high byte:
`(tmp << 8) ^ (tmp << 3) ^ (tmp >> 4)`. -/
def crc_mix (tmp : Nat) : Nat :=
  (tmp <<< 8) ^^^ (tmp <<< 3) ^^^ (tmp >>> 4)

/-- The second line of `crc_accumulate`: `tmp ^= (tmp << 4)` on an 8-bit variable. -/
def crc_fold4 (tmp : Nat) : Nat :=
  (tmp ^^^ (tmp <<< 4)) % 256

/-- The entries of `mavlink_message_lengths` for the three messages of the
bridge (MAVLink v1: HIL_CONTROLS 42, HIL_SENSOR 64, HIL_GPS 36 bytes). -/
def hil_message_lengths (msgid : Nat) : Nat :=
  if msgid = MAVLINK_MSG_ID_HIL_CONTROLS then 42
  else if msgid = MAVLINK_MSG_ID_HIL_SENSOR then 64
  else if msgid = MAVLINK_MSG_ID_HIL_GPS then 36
  else 0

/-- The entries of `mavlink_message_crcs` for the three messages of the bridge
(MAVLink v1: HIL_CONTROLS 63, HIL_SENSOR 108, HIL_GPS 124). -/
def hil_message_crcs (msgid : Nat) : Nat :=
  if msgid = MAVLINK_MSG_ID_HIL_CONTROLS then 63
  else if msgid = MAVLINK_MSG_ID_HIL_SENSOR then 108
  else if msgid = MAVLINK_MSG_ID_HIL_GPS then 124
  else 0

/-! ## Messages -/

/-- A received MAVLink message (`mavlink_message_t`): id and payload bytes. -/
structure mavlink_message_t where
  msgid : Nat
  payload : List Nat

/-- The eight control channels of `mavlink_hil_controls_t`. -/
structure mavlink_hil_controls_t (α : Type) where
  roll_ailerons : α
  pitch_elevator : α
  yaw_rudder : α
  throttle : α
  aux1 : α
  aux2 : α
  aux3 : α
  aux4 : α

/-- The structured `HilControl` message with the same eight channels. -/
structure HilControl (α : Type) where
  roll_ailerons : α
  pitch_elevator : α
  yaw_rudder : α
  throttle : α
  aux1 : α
  aux2 : α
  aux3 : α
  aux4 : α

/-- The fields of a HIL_GPS payload; `mavlink_hil_gps_t` and the structured
`HilGps` message carry the same thirteen integer fields. -/
structure HilGps where
  time_usec : Int
  fix_type : Int
  lat : Int
  lon : Int
  alt : Int
  eph : Int
  epv : Int
  vel : Int
  vn : Int
  ve : Int
  vd : Int
  cog : Int
  satellites_visible : Int
deriving DecidableEq, Repr

/-- The fields of a HIL_SENSOR payload; `mavlink_hil_sensor_t` and the `HilSensor`
message of the structured transport carry the same fifteen fields. -/
structure HilSensor (α : Type) where
  time_usec : Int
  xacc : α
  yacc : α
  zacc : α
  xgyro : α
  ygyro : α
  zgyro : α
  xmag : α
  ymag : α
  zmag : α
  abs_pressure : α
  diff_pressure : α
  pressure_alt : α
  temperature : α
  fields_updated : Int

/-- The IMU message delivered to `ImuCallback`. -/
structure Imu (α : Type) where
  orientation : math.Quaternion α
  linear_acceleration : math.Vector3 α
  angular_velocity : math.Vector3 α

/-- What the engine reports when asked during a call: `world_->GetSimTime()`,
`model_->GetWorldPose().pos` and `model_->GetWorldLinearVel()`. -/
structure World (α : Type) where
  SimTime : common.Time
  WorldPose_pos : math.Vector3 α
  WorldLinearVel : math.Vector3 α

/-- Functions the source calls but does not define: libm, the engine, the
MAVLink C library, and the tables and memory images of the message structures. -/
structure Deps (α : Type) where
  atan2 : α → α → α
  sqrt : α → α
  RotateVectorReverse : math.Quaternion α → math.Vector3 α → math.Vector3 α
  Time_of_double : α → common.Time
  mavlink_message_lengths : Nat → Nat
  mavlink_message_crcs : Nat → Nat
  mavlink_msg_hil_controls_decode : mavlink_message_t → mavlink_hil_controls_t α
  hil_gps_image : HilGps → List Nat
  hil_sensor_image : HilSensor α → List Nat

/-- A message handed to a transport. -/
inductive Published (α : Type) where
  | motor_velocity_reference (motor_speed : List α)
  | sendto_hil_gps (hil_gps_msg : HilGps) (datagram : List Nat)
  | hil_gps_pub (hil_gps_msg : HilGps)
  | sendto_hil_sensor (sensor_msg : HilSensor α) (datagram : List Nat)
  | hil_sensor_pub (hil_sensor_msg : HilSensor α)

/-- The message is a motor-speed command for the engine. -/
def Published.isMotorSpeed {α : Type} : Published α → Bool
  | .motor_velocity_reference _ => true
  | _ => false

/-- The HIL_GPS payload of the message, on either transport. -/
def Published.hilGps {α : Type} : Published α → Option HilGps
  | .sendto_hil_gps m _ => some m
  | .hil_gps_pub m => some m
  | _ => none

/-- The HIL_SENSOR payload of the message, on either transport. -/
def Published.hilSensor {α : Type} : Published α → Option (HilSensor α)
  | .sendto_hil_sensor m _ => some m
  | .hil_sensor_pub m => some m
  | _ => none

/-- The `time_usec` field of a telemetry payload. -/
def Published.time_usec {α : Type} : Published α → Option Int
  | .sendto_hil_gps m _ => some m.time_usec
  | .hil_gps_pub m => some m.time_usec
  | .sendto_hil_sensor m _ => some m.time_usec
  | .hil_sensor_pub m => some m.time_usec
  | .motor_velocity_reference _ => none

/-! ## The bridge object -/

/-- The members of `GazeboMavlinkInterface` read or written by the source file. -/
structure GazeboMavlinkInterface (α : Type) where
  received_first_referenc_ : Bool
  use_mavlink_udp : Bool
  _rotor_count : Nat
  inputs_control : List α
  input_reference_ : List α
  last_time_ : common.Time
  last_gps_time_ : common.Time
  gps_update_interval_ : α
  mag_W_ : math.Vector3 α

section
variable {α : Type} [LinearOrderedField α] [FloorRing α]

/-- Engine `Vector3::GetLength`. -/
def math.Vector3.GetLength (E : Deps α) (v : math.Vector3 α) : α :=
  E.sqrt (v.x * v.x + v.y * v.y + v.z * v.z)

/-- Modelled from the spec: the object as the constructor in
`gazebo_mavlink_interface.h` (not in the source tree) leaves it, unarmed; the
transport mode and the GPS interval member are fixed there. -/
def GazeboMavlinkInterface.init (use_mavlink_udp : Bool) (gps_update_interval_ : α) :
    GazeboMavlinkInterface α :=
  { received_first_referenc_ := false
    use_mavlink_udp := use_mavlink_udp
    _rotor_count := 0
    inputs_control := [0, 0, 0, 0, 0, 0, 0, 0]
    input_reference_ := []
    last_time_ := { sec := 0, nsec := 0 }
    last_gps_time_ := { sec := 0, nsec := 0 }
    gps_update_interval_ := gps_update_interval_
    mag_W_ := { x := 0, y := 0, z := 0 } }

/-- Source `GazeboMavlinkInterface::Load`, the assignments to the members above.
The line `double gps_update_interval_ = 200*1000000;` declares a local and
leaves the member as it was. -/
def GazeboMavlinkInterface.Load (self : GazeboMavlinkInterface α) (SimTime : common.Time) :
    GazeboMavlinkInterface α :=
  { self with
    _rotor_count := 4
    last_time_ := SimTime
    last_gps_time_ := SimTime
    mag_W_ := { x := 0.21523, y := 0.00771, z := 0.42741 } }

/-- Source `GazeboMavlinkInterface::handle_message`. -/
def GazeboMavlinkInterface.handle_message (E : Deps α) (self : GazeboMavlinkInterface α)
    (msg : mavlink_message_t) : GazeboMavlinkInterface α :=
  if msg.msgid = MAVLINK_MSG_ID_HIL_CONTROLS then
    let controls := E.mavlink_msg_hil_controls_decode msg
    let control : List α :=
      [controls.roll_ailerons, controls.pitch_elevator, controls.yaw_rudder,
       controls.throttle, controls.aux1, controls.aux2, controls.aux3, controls.aux4]
    let scaling : α := 150
    let offset : α := 600
    { self with
      inputs_control := control
      input_reference_ :=
        (List.range self._rotor_count).map (fun i => control.getD i 0 * scaling + offset)
      received_first_referenc_ := true }
  else self

/-- Source `GazeboMavlinkInterface::pollForMAVLinkMessages`; `received` lists the
messages `mavlink_parse_char` completes over the bytes of the datagram read by
this call, in order (empty when nothing is read). -/
def GazeboMavlinkInterface.pollForMAVLinkMessages (E : Deps α)
    (self : GazeboMavlinkInterface α) (received : List mavlink_message_t) :
    GazeboMavlinkInterface α :=
  received.foldl (GazeboMavlinkInterface.handle_message E) self

/-- Source `GazeboMavlinkInterface::HilControlCallback`. -/
def GazeboMavlinkInterface.HilControlCallback (self : GazeboMavlinkInterface α)
    (rmsg : HilControl α) : GazeboMavlinkInterface α :=
  if !self.use_mavlink_udp then
    let control : List α :=
      [rmsg.roll_ailerons, rmsg.pitch_elevator, rmsg.yaw_rudder,
       rmsg.throttle, rmsg.aux1, rmsg.aux2, rmsg.aux3, rmsg.aux4]
    let scaling : α := 150
    let offset : α := 600
    let turning_velocities_msg : List α :=
      (List.range self._rotor_count).map (fun i => control.getD i 0 * scaling + offset)
    { self with
      inputs_control := control
      input_reference_ :=
        (List.range turning_velocities_msg.length).map
          (fun i => turning_velocities_msg.getD i 0)
      received_first_referenc_ := true }
  else self

/-- The HIL_GPS structure `mavlink_hil_gps_t` filled on the UDP branch of
`OnUpdate`.  `lat`, `lon`, `alt` are `int32_t`, `vel` and `cog` are `uint16_t`,
`vn`, `ve`, `vd` are `int16_t`; `cog` is computed from the already stored
fields `ve` and `vn`.  `lat_zurich` and `long_zurich` are the single-precision
values of the `float` constants `47.3667` and `8.5500`. -/
def hil_gps_msg_udp (E : Deps α) (current_time : common.Time)
    (pos_W_I velocity_current_W : math.Vector3 α) : HilGps :=
  let velocity_current_W_xy : math.Vector3 α := { velocity_current_W with z := 0.0 }
  let lat_zurich : α := 47.36669921875
  let long_zurich : α := 8.55000019073486328125
  let earth_radius : α := 6353000
  let ve : Int := to_int16 (-velocity_current_W.y * 100)
  let vn : Int := to_int16 (velocity_current_W.x * 100)
  { time_usec := hil_time_usec current_time
    fix_type := 3
    lat := to_int32 ((lat_zurich + (pos_W_I.x / earth_radius) * 180 / 3.1416) * 10000000)
    lon := to_int32 ((long_zurich + (-pos_W_I.y / earth_radius) * 180 / 3.1416) * 10000000)
    alt := to_int32 (pos_W_I.z * 1000)
    eph := 100
    epv := 100
    vel := to_uint16 (velocity_current_W_xy.GetLength E * 100)
    vn := vn
    ve := ve
    vd := to_int16 (-velocity_current_W.z * 100)
    cog := to_uint16 (E.atan2 (ve : α) (vn : α) * 180.0 / 3.1416 * 100.0)
    satellites_visible := 10 }

/-- The `HilGps` message filled on the structured branch of `OnUpdate`: each
field is the argument handed to the generated setter, converted by truncation.
`lat_zurich` and `long_zurich` are the single-precision values of the `float`
constants `47.3667` and `8.5500`. -/
def hil_gps_msg_protobuf (E : Deps α) (current_time : common.Time)
    (pos_W_I velocity_current_W : math.Vector3 α) : HilGps :=
  let velocity_current_W_xy : math.Vector3 α := { velocity_current_W with z := 0.0 }
  let lat_zurich : α := 47.36669921875
  let long_zurich : α := 8.55000019073486328125
  let earth_radius : α := 6353000
  { time_usec := hil_time_usec current_time
    fix_type := 3
    lat := to_integer ((lat_zurich + (pos_W_I.x / earth_radius) * 180 / 3.1416) * 10000000)
    lon := to_integer ((long_zurich + (-pos_W_I.y / earth_radius) * 180 / 3.1416) * 10000000)
    alt := to_integer (pos_W_I.z * 1000)
    eph := 100
    epv := 100
    vel := to_integer (velocity_current_W_xy.GetLength E * 100)
    vn := to_integer (velocity_current_W.x * 100)
    ve := to_integer (-velocity_current_W.y * 100)
    vd := to_integer (-velocity_current_W.z * 100)
    cog := to_integer
      (E.atan2 (-velocity_current_W.y * 100) (velocity_current_W.x * 100)
        * 180.0 / 3.1416 * 100.0)
    satellites_visible := 10 }

/-- Source `GazeboMavlinkInterface::OnUpdate`. -/
def GazeboMavlinkInterface.OnUpdate (E : Deps α) (self : GazeboMavlinkInterface α)
    (received : List mavlink_message_t) (world : World α) :
    GazeboMavlinkInterface α × List (Published α) :=
  let self := self.pollForMAVLinkMessages E received
  if !self.received_first_referenc_ then (self, [])
  else
    let now := world.SimTime
    let turning_velocities_msg := self.input_reference_
    let out := [Published.motor_velocity_reference turning_velocities_msg]
    -- send gps
    let current_time := now
    let self := { self with last_time_ := current_time }
    let pos_W_I := world.WorldPose_pos
    let velocity_current_W := world.WorldLinearVel
    let gps_update := E.Time_of_double self.gps_update_interval_
    if (current_time.sub self.last_gps_time_).gt gps_update then
      if self.use_mavlink_udp then
        let hil_gps_msg := hil_gps_msg_udp E current_time pos_W_I velocity_current_W
        ({ self with last_gps_time_ := current_time },
          out ++ [Published.sendto_hil_gps hil_gps_msg
            (send_mavlink_message E.mavlink_message_lengths E.mavlink_message_crcs
              MAVLINK_MSG_ID_HIL_GPS (E.hil_gps_image hil_gps_msg) 200)])
      else
        let hil_gps_msg := hil_gps_msg_protobuf E current_time pos_W_I velocity_current_W
        ({ self with last_gps_time_ := current_time },
          out ++ [Published.hil_gps_pub hil_gps_msg])
    else (self, out)

/-- The HIL_SENSOR fields filled by `ImuCallback`, the same on both branches. -/
def hil_sensor_msg (E : Deps α) (self : GazeboMavlinkInterface α) (imu_message : Imu α)
    (world : World α) : HilSensor α :=
  let pos_W_I := world.WorldPose_pos
  let C_W_I : math.Quaternion α :=
    { w := imu_message.orientation.w, x := imu_message.orientation.x,
      y := imu_message.orientation.y, z := imu_message.orientation.z }
  let mag_I := E.RotateVectorReverse C_W_I self.mag_W_
  let body_vel := E.RotateVectorReverse C_W_I world.WorldLinearVel
  { time_usec := hil_time_usec world.SimTime
    xacc := imu_message.linear_acceleration.x
    yacc := imu_message.linear_acceleration.y
    zacc := imu_message.linear_acceleration.z
    xgyro := imu_message.angular_velocity.x
    ygyro := imu_message.angular_velocity.y
    zgyro := imu_message.angular_velocity.z
    xmag := mag_I.x
    ymag := mag_I.y
    zmag := mag_I.z
    abs_pressure := 0.0
    diff_pressure := 0.5 * 1.2754 * body_vel.x * body_vel.x
    pressure_alt := pos_W_I.z
    temperature := 0.0
    fields_updated := 4095 }

/-- Source `GazeboMavlinkInterface::ImuCallback`. -/
def GazeboMavlinkInterface.ImuCallback (E : Deps α) (self : GazeboMavlinkInterface α)
    (imu_message : Imu α) (world : World α) :
    GazeboMavlinkInterface α × List (Published α) :=
  if self.use_mavlink_udp then
    let sensor_msg := hil_sensor_msg E self imu_message world
    (self, [Published.sendto_hil_sensor sensor_msg
      (send_mavlink_message E.mavlink_message_lengths E.mavlink_message_crcs
        MAVLINK_MSG_ID_HIL_SENSOR (E.hil_sensor_image sensor_msg) 200)])
  else
    (self, [Published.hil_sensor_pub (hil_sensor_msg E self imu_message world)])

/-- Collaborators for evaluating the bridge on concrete inputs: the table
entries above, a GPS period of 200 ms, zero-filled memory images of the payload
sizes, a decoder that yields the given channels, and the given `atan2`; the
remaining engine functions are not exercised by the examples. -/
def exampleDeps (atan2 : α → α → α) (controls : mavlink_hil_controls_t α) : Deps α :=
  { atan2 := atan2
    sqrt := fun x => x
    RotateVectorReverse := fun _ v => v
    Time_of_double := fun _ => common.Time.ofNs 200000000
    mavlink_message_lengths := hil_message_lengths
    mavlink_message_crcs := hil_message_crcs
    mavlink_msg_hil_controls_decode := fun _ => controls
    hil_gps_image := fun _ => List.replicate 36 0
    hil_sensor_image := fun _ => List.replicate 64 0 }

/-- The control input of the example vector: roll 0.1, throttle 0.5, every
other channel 0. -/
def example_controls : mavlink_hil_controls_t ℚ :=
  { roll_ailerons := 1 / 10, pitch_elevator := 0, yaw_rudder := 0, throttle := 1 / 2,
    aux1 := 0, aux2 := 0, aux3 := 0, aux4 := 0 }

/-- The same control input as a structured `HilControl` message. -/
def example_HilControl : HilControl ℚ :=
  { roll_ailerons := 1 / 10, pitch_elevator := 0, yaw_rudder := 0, throttle := 1 / 2,
    aux1 := 0, aux2 := 0, aux3 := 0, aux4 := 0 }

/-- A received HIL_CONTROLS message. -/
def example_controls_message : mavlink_message_t :=
  { msgid := MAVLINK_MSG_ID_HIL_CONTROLS, payload := List.replicate 42 0 }

/-- The example collaborators over `ℚ`; the examples over `ℚ` keep the
vehicle at rest, where `atan2 0 0 = 0`. -/
def exampleDepsQ : Deps ℚ :=
  exampleDeps (fun _ _ => 0) example_controls

/-- The bridge right after `Load` at simulation time 0, in the given transport mode. -/
def loaded_bridge (use_mavlink_udp : Bool) : GazeboMavlinkInterface ℚ :=
  (GazeboMavlinkInterface.init use_mavlink_udp 0).Load (common.Time.ofNs 0)

/-- The engine state of the GPS example: vehicle at rest at `(0, 0, 10)` at the
given time in nanoseconds. -/
def example_world (t : Int) : World ℚ :=
  { SimTime := common.Time.ofNs t
    WorldPose_pos := { x := 0, y := 0, z := 10 }
    WorldLinearVel := { x := 0, y := 0, z := 0 } }

/-- An IMU sample of a vehicle at rest. -/
def example_imu : Imu ℚ :=
  { orientation := { w := 1, x := 0, y := 0, z := 0 }
    linear_acceleration := { x := 0, y := 0, z := 0 }
    angular_velocity := { x := 0, y := 0, z := 0 } }

/-! ## Event sequences -/

/-- One call into the bridge from its environment. -/
inductive Event (α : Type) where
  | OnUpdate (received : List mavlink_message_t) (world : World α)
  | HilControlCallback (rmsg : HilControl α)
  | ImuCallback (imu_message : Imu α) (world : World α)

/-- The call decodes a control frame: an `OnUpdate` whose poll completes a
HIL_CONTROLS message, or a `HilControl` message while the structured transport
is in use. -/
def Event.decodesControl (use_mavlink_udp : Bool) : Event α → Bool
  | .OnUpdate received _ => received.any (fun msg => msg.msgid == MAVLINK_MSG_ID_HIL_CONTROLS)
  | .HilControlCallback _ => !use_mavlink_udp
  | .ImuCallback _ _ => false

/-- The call is an `ImuCallback`. -/
def Event.isImu : Event α → Bool
  | .ImuCallback _ _ => true
  | _ => false

/-- The simulation time the engine reports during the call, when it is asked. -/
def Event.SimTime : Event α → Option common.Time
  | .OnUpdate _ world => some world.SimTime
  | .HilControlCallback _ => none
  | .ImuCallback _ world => some world.SimTime

/-- Effect of one call on the bridge. -/
def GazeboMavlinkInterface.step (E : Deps α) (self : GazeboMavlinkInterface α) :
    Event α → GazeboMavlinkInterface α × List (Published α)
  | .OnUpdate received world => self.OnUpdate E received world
  | .HilControlCallback rmsg => (self.HilControlCallback rmsg, [])
  | .ImuCallback imu_message world => self.ImuCallback E imu_message world

/-- Effect of a sequence of calls: final state and everything published, in order. -/
def GazeboMavlinkInterface.run (E : Deps α) (self : GazeboMavlinkInterface α) :
    List (Event α) → GazeboMavlinkInterface α × List (Published α)
  | [] => (self, [])
  | e :: es =>
    let r := self.step E e
    let rs := GazeboMavlinkInterface.run E r.1 es
    (rs.1, r.2 ++ rs.2)

end

/-! ## The checksum step is injective -/

theorem shiftRight_xor (a b k : Nat) : (a ^^^ b) >>> k = (a >>> k) ^^^ (b >>> k) := by
  apply Nat.eq_of_testBit_eq
  intro i
  simp [Nat.testBit_shiftRight, Nat.testBit_xor]

set_option maxRecDepth 100000 in
theorem crc_mix_high : ∀ t < 256, (crc_mix t >>> 8) ^^^ ((crc_mix t >>> 8) >>> 5) = t := by
  decide

set_option maxRecDepth 100000 in
theorem crc_mix_lt : ∀ t < 256, crc_mix t < 65536 := by
  decide

set_option maxRecDepth 100000 in
theorem crc_fold4_invol : ∀ x < 256, crc_fold4 (crc_fold4 x) = x := by
  decide

theorem crc_fold4_lt (x : Nat) : crc_fold4 x < 256 :=
  Nat.mod_lt _ (by norm_num)

theorem crc_accumulate_lt (data crc : Nat) : crc_accumulate data crc < 65536 :=
  Nat.mod_lt _ (by norm_num)

/-- The step splits into the old high byte and a function of `data ^ low byte`. -/
theorem crc_accumulate_eq (data crc : Nat) (hc : crc < 65536) :
    crc_accumulate data crc
      = (crc / 256) ^^^ crc_mix (crc_fold4 ((data ^^^ (crc % 256)) % 256)) := by
  have h : crc &&& 0xff = crc % 256 := Nat.and_pow_two_sub_one_eq_mod crc 8
  have e : crc_accumulate data crc
      = ((crc / 256) ^^^ crc_mix (crc_fold4 ((data ^^^ (crc % 256)) % 256))) % 65536 := by
    unfold crc_accumulate crc_mix crc_fold4
    simp only [h, Nat.shiftRight_eq_div_pow crc 8, Nat.xor_assoc]
  rw [e]
  apply Nat.mod_eq_of_lt
  have h1 : crc / 256 < 2 ^ 16 := by omega
  have h2 : crc_mix (crc_fold4 ((data ^^^ (crc % 256)) % 256)) < 2 ^ 16 :=
    crc_mix_lt _ (crc_fold4_lt _)
  exact Nat.xor_lt_two_pow h1 h2

/-- The high byte of `hi ^ crc_mix t` determines `t`. -/
theorem crc_mix_recover (hi t : Nat) (hhi : hi < 256) (ht : t < 256) :
    (((hi ^^^ crc_mix t) >>> 8) ^^^ (((hi ^^^ crc_mix t) >>> 8) >>> 5)) = t := by
  have h0 : hi >>> 8 = 0 := by
    rw [Nat.shiftRight_eq_div_pow]
    exact Nat.div_eq_of_lt hhi
  rw [shiftRight_xor, h0, Nat.zero_xor]
  exact crc_mix_high t ht

theorem crc_accumulate_inj (d1 d2 c1 c2 : Nat) (hd1 : d1 < 256) (hd2 : d2 < 256)
    (hc1 : c1 < 65536) (hc2 : c2 < 65536)
    (h : crc_accumulate d1 c1 = crc_accumulate d2 c2) :
    c1 / 256 = c2 / 256 ∧ d1 ^^^ (c1 % 256) = d2 ^^^ (c2 % 256) := by
  rw [crc_accumulate_eq _ _ hc1, crc_accumulate_eq _ _ hc2] at h
  have hx1 : d1 ^^^ (c1 % 256) < 256 :=
    @Nat.xor_lt_two_pow _ _ 8 hd1 (Nat.mod_lt _ (by norm_num))
  have hx2 : d2 ^^^ (c2 % 256) < 256 :=
    @Nat.xor_lt_two_pow _ _ 8 hd2 (Nat.mod_lt _ (by norm_num))
  rw [Nat.mod_eq_of_lt hx1, Nat.mod_eq_of_lt hx2] at h
  have hh1 : c1 / 256 < 256 := by omega
  have hh2 : c2 / 256 < 256 := by omega
  have ht : crc_fold4 (d1 ^^^ (c1 % 256)) = crc_fold4 (d2 ^^^ (c2 % 256)) := by
    have r1 := crc_mix_recover (c1 / 256) _ hh1 (crc_fold4_lt (d1 ^^^ (c1 % 256)))
    have r2 := crc_mix_recover (c2 / 256) _ hh2 (crc_fold4_lt (d2 ^^^ (c2 % 256)))
    rw [← r1, ← r2, h]
  constructor
  · rw [ht] at h
    exact Nat.xor_left_injective h
  · have := congrArg crc_fold4 ht
    rwa [crc_fold4_invol _ hx1, crc_fold4_invol _ hx2] at this

theorem crc_accumulate_inj_crc (d c1 c2 : Nat) (hd : d < 256)
    (hc1 : c1 < 65536) (hc2 : c2 < 65536)
    (h : crc_accumulate d c1 = crc_accumulate d c2) : c1 = c2 := by
  obtain ⟨h1, h2⟩ := crc_accumulate_inj d d c1 c2 hd hd hc1 hc2 h
  have h3 : c1 % 256 = c2 % 256 := Nat.xor_right_injective h2
  omega

theorem crc_accumulate_inj_data (d1 d2 c : Nat) (hd1 : d1 < 256) (hd2 : d2 < 256)
    (hc : c < 65536)
    (h : crc_accumulate d1 c = crc_accumulate d2 c) : d1 = d2 := by
  obtain ⟨_, h2⟩ := crc_accumulate_inj d1 d2 c c hd1 hd2 hc hc h
  exact Nat.xor_left_injective h2

theorem crc_fold_lt (xs : List Nat) (c : Nat) (hc : c < 65536) :
    xs.foldl (fun crc data => crc_accumulate data crc) c < 65536 := by
  induction xs generalizing c with
  | nil => simpa using hc
  | cons y ys ih => exact ih _ (crc_accumulate_lt y c)

/-- Two different accumulators stay different over any run of bytes. -/
theorem crc_fold_ne (xs : List Nat) (hxs : ∀ b ∈ xs, b < 256) (c1 c2 : Nat)
    (h1 : c1 < 65536) (h2 : c2 < 65536) (hne : c1 ≠ c2) :
    xs.foldl (fun crc data => crc_accumulate data crc) c1
      ≠ xs.foldl (fun crc data => crc_accumulate data crc) c2 := by
  induction xs generalizing c1 c2 with
  | nil => simpa using hne
  | cons x xs ih =>
    simp only [List.foldl_cons]
    apply ih (fun b hb => hxs b (List.mem_cons_of_mem _ hb)) _ _
      (crc_accumulate_lt x c1) (crc_accumulate_lt x c2)
    intro h
    exact hne (crc_accumulate_inj_crc x c1 c2 (hxs x (List.mem_cons_self _ _)) h1 h2 h)

/-- Replacing one byte of a run by a different byte changes the checksum. -/
theorem crc_fold_set_ne (xs : List Nat) (hxs : ∀ b ∈ xs, b < 256) (c : Nat) (hc : c < 65536)
    (i : Nat) (hi : i < xs.length) (b : Nat) (hb : b < 256) (hne : b ≠ xs.getD i 0) :
    (xs.set i b).foldl (fun crc data => crc_accumulate data crc) c
      ≠ xs.foldl (fun crc data => crc_accumulate data crc) c := by
  induction xs generalizing c i with
  | nil => simp at hi
  | cons x xs ih =>
    cases i with
    | zero =>
      simp only [List.set_cons_zero, List.foldl_cons]
      apply crc_fold_ne xs (fun b hb => hxs b (List.mem_cons_of_mem _ hb)) _ _
        (crc_accumulate_lt b c) (crc_accumulate_lt x c)
      intro h
      apply hne
      simpa using crc_accumulate_inj_data b x c hb (hxs x (List.mem_cons_self _ _)) hc h
    | succ j =>
      simp only [List.set_cons_succ, List.foldl_cons]
      apply ih (fun b hb => hxs b (List.mem_cons_of_mem _ hb)) _ (crc_accumulate_lt x c) j
      · simpa using hi
      · simpa using hne

/-! ## Frames built by `send_mavlink_message` -/

/-- The datagram written out as a list, for a payload of the table length. -/
theorem frame_shape (lengths crcs : Nat → Nat) (msgid : Nat) (msg : List Nat)
    (component_ID : Nat) (hlen : msg.length = lengths (msgid % 256) % 256) :
    send_mavlink_message lengths crcs msgid msg component_ID
      = [254, lengths (msgid % 256) % 256, 100, 0, 0, msgid % 256] ++ msg ++
        [crc_accumulate (crcs (msgid % 256) % 256)
            (crc_accumulate_buffer crc_init
              ([lengths (msgid % 256) % 256, 100, 0, 0, msgid % 256] ++ msg)
              (5 + lengths (msgid % 256) % 256)) % 256,
         crc_accumulate (crcs (msgid % 256) % 256)
            (crc_accumulate_buffer crc_init
              ([lengths (msgid % 256) % 256, 100, 0, 0, msgid % 256] ++ msg)
              (5 + lengths (msgid % 256) % 256)) / 256 % 256] := by
  unfold send_mavlink_message
  simp only [MAVLINK_STX, MAVLINK_NUM_NON_PAYLOAD_BYTES, MAVLINK_NUM_HEADER_BYTES,
    MAVLINK_CORE_HEADER_LEN, MAVLINK_NUM_CHECKSUM_BYTES]
  have h1 : msg.take (lengths (msgid % 256) % 256) = msg := by
    rw [← hlen]
    exact List.take_length msg
  rw [h1]
  have h2 : ∀ c : Nat, (c &&& 0xFF) % 256 = c % 256 := by
    intro c
    have := Nat.and_pow_two_sub_one_eq_mod c 8
    simp at this
    rw [this]
    simp
  rw [h2]
  rw [List.take_of_length_le]
  · simp [Nat.shiftRight_eq_div_pow]
  · simp [← hlen]

/-- Claim C3: for a message id below 256 whose table length is `L` and a payload
of `L` bytes, the frame built by `send_mavlink_message` has `L + 8` bytes; byte
0 is `0xFE`, byte 1 is `L`, byte 5 is the message id, bytes `6 .. 5+L` are the
payload, and the last two bytes are the low and then the high byte of the
checksum started at `0xFFFF`, accumulated over bytes `1 .. 5+L` of the frame
and then over the seed constant of the message id. -/
theorem send_mavlink_message_frame_layout (lengths crcs : Nat → Nat) (msgid : Nat)
    (msg : List Nat) (component_ID : Nat)
    (hid : msgid < 256) (hlen : msg.length = lengths msgid % 256) :
    (send_mavlink_message lengths crcs msgid msg component_ID).length
        = lengths msgid % 256 + 8 ∧
    (send_mavlink_message lengths crcs msgid msg component_ID)[0]? = some 0xFE ∧
    (send_mavlink_message lengths crcs msgid msg component_ID)[1]?
        = some (lengths msgid % 256) ∧
    (send_mavlink_message lengths crcs msgid msg component_ID)[5]? = some msgid ∧
    ((send_mavlink_message lengths crcs msgid msg component_ID).drop 6).take
        (lengths msgid % 256) = msg ∧
    (send_mavlink_message lengths crcs msgid msg component_ID)[6 + lengths msgid % 256]?
        = some (crc_accumulate (crcs msgid % 256)
            (crc_accumulate_buffer 0xFFFF
              ((send_mavlink_message lengths crcs msgid msg component_ID).drop 1)
              (5 + lengths msgid % 256)) % 256) ∧
    (send_mavlink_message lengths crcs msgid msg component_ID)[7 + lengths msgid % 256]?
        = some (crc_accumulate (crcs msgid % 256)
            (crc_accumulate_buffer 0xFFFF
              ((send_mavlink_message lengths crcs msgid msg component_ID).drop 1)
              (5 + lengths msgid % 256)) / 256) := by
  have hm : msgid % 256 = msgid := Nat.mod_eq_of_lt hid
  have hlen2 : msg.length = lengths (msgid % 256) % 256 := by
    rw [hm]
    exact hlen
  have hs := frame_shape lengths crcs msgid msg component_ID hlen2
  rw [hm] at hs
  have hbuf : ∀ (lo hi : Nat),
      crc_accumulate_buffer 0xFFFF
        (([254, lengths msgid % 256, 100, 0, 0, msgid] ++ msg ++ [lo, hi]).drop 1)
        (5 + lengths msgid % 256)
      = crc_accumulate_buffer crc_init ([lengths msgid % 256, 100, 0, 0, msgid] ++ msg)
        (5 + lengths msgid % 256) := by
    intro lo hi
    unfold crc_accumulate_buffer
    congr 1
    have hl : ([lengths msgid % 256, 100, 0, 0, msgid] ++ msg).length
        = 5 + lengths msgid % 256 := by
      simp [hlen]
      omega
    have e : ([254, lengths msgid % 256, 100, 0, 0, msgid] ++ msg ++ [lo, hi]).drop 1
        = ([lengths msgid % 256, 100, 0, 0, msgid] ++ msg) ++ [lo, hi] := by simp
    rw [e, ← hl, List.take_left, List.take_length]
  rw [hs, hbuf]
  have hlt := crc_accumulate_lt (crcs msgid % 256)
    (crc_accumulate_buffer crc_init ([lengths msgid % 256, 100, 0, 0, msgid] ++ msg)
      (5 + lengths msgid % 256))
  generalize crc_accumulate (crcs msgid % 256)
    (crc_accumulate_buffer crc_init ([lengths msgid % 256, 100, 0, 0, msgid] ++ msg)
      (5 + lengths msgid % 256)) = crc at hlt ⊢
  have hcrc : crc / 256 % 256 = crc / 256 := Nat.mod_eq_of_lt (by omega)
  rw [hcrc, ← hlen]
  refine ⟨?_, ?_, ?_, ?_, ?_, ?_, ?_⟩
  · simp
  · simp
  · simp
  · simp
  · simp
  · have e : [254, msg.length, 100, 0, 0, msgid] ++ msg ++ [crc % 256, crc / 256]
        = ([254, msg.length, 100, 0, 0, msgid] ++ msg) ++ [crc % 256, crc / 256] := rfl
    rw [e, List.getElem?_append_right (by simp; omega)]
    have : 6 + msg.length - ([254, msg.length, 100, 0, 0, msgid] ++ msg).length = 0 := by
      simp
      omega
    rw [this]
    simp
  · have e : [254, msg.length, 100, 0, 0, msgid] ++ msg ++ [crc % 256, crc / 256]
        = ([254, msg.length, 100, 0, 0, msgid] ++ msg) ++ [crc % 256, crc / 256] := rfl
    rw [e, List.getElem?_append_right (by simp; omega)]
    have : 7 + msg.length - ([254, msg.length, 100, 0, 0, msgid] ++ msg).length = 1 := by
      simp
      omega
    rw [this]
    simp

/-- Claim C3 at a HIL_GPS frame with a zero payload of 36 bytes: the frame has
44 bytes, starts `0xFE, 36`, and carries the message id 113 in byte 5. -/
theorem send_mavlink_message_frame_layout_example :
    (send_mavlink_message hil_message_lengths hil_message_crcs 113
        (List.replicate 36 0) 200).length = 44 ∧
    (send_mavlink_message hil_message_lengths hil_message_crcs 113
        (List.replicate 36 0) 200)[0]? = some 254 ∧
    (send_mavlink_message hil_message_lengths hil_message_crcs 113
        (List.replicate 36 0) 200)[1]? = some 36 ∧
    (send_mavlink_message hil_message_lengths hil_message_crcs 113
        (List.replicate 36 0) 200)[5]? = some 113 :=
  ⟨(send_mavlink_message_frame_layout hil_message_lengths hil_message_crcs 113
      (List.replicate 36 0) 200 (by decide) (by decide)).1,
   (send_mavlink_message_frame_layout hil_message_lengths hil_message_crcs 113
      (List.replicate 36 0) 200 (by decide) (by decide)).2.1,
   (send_mavlink_message_frame_layout hil_message_lengths hil_message_crcs 113
      (List.replicate 36 0) 200 (by decide) (by decide)).2.2.1,
   (send_mavlink_message_frame_layout hil_message_lengths hil_message_crcs 113
      (List.replicate 36 0) 200 (by decide) (by decide)).2.2.2.1⟩

/-- Claim C9 fails on the code: whatever `component_ID` the caller passes, byte
4 of the frame built by `send_mavlink_message` is 0, because the first
statement of the function overwrites the argument; the HIL_SENSOR and HIL_GPS
frames, sent with 200, carry 0. -/
theorem send_mavlink_message_comp_id_zero (lengths crcs : Nat → Nat) (msgid : Nat)
    (msg : List Nat) (component_ID : Nat) :
    (send_mavlink_message lengths crcs msgid msg component_ID)[4]? = some 0 := by
  unfold send_mavlink_message
  simp [MAVLINK_NUM_NON_PAYLOAD_BYTES, MAVLINK_NUM_HEADER_BYTES, MAVLINK_CORE_HEADER_LEN,
    MAVLINK_NUM_CHECKSUM_BYTES, List.getElem?_take]

/-- The receiver check on a frame split into start byte, body and trailer. -/
theorem frame_accepted_cons (crcs : Nat → Nat) (stx : Nat) (body : List Nat) (lo hi : Nat)
    (hbody : 5 ≤ body.length) :
    frame_accepted crcs (stx :: (body ++ [lo, hi]))
      = (lo == crc_accumulate (crcs (body.getD 4 0) % 256)
                (body.foldl (fun crc data => crc_accumulate data crc) crc_init) % 256 &&
         hi == crc_accumulate (crcs (body.getD 4 0) % 256)
                (body.foldl (fun crc data => crc_accumulate data crc) crc_init) / 256) := by
  unfold frame_accepted frame_recomputed_crc crc_accumulate_buffer
  simp only [MAVLINK_NUM_CHECKSUM_BYTES, List.length_cons, List.length_append,
    List.length_nil, List.drop_succ_cons, List.drop_zero]
  have e1 : body.length + (0 + 1 + 1) + 1 - 1 - 2 = body.length := by omega
  have e2 : body.length + (0 + 1 + 1) + 1 - 2 = body.length + 1 := by omega
  have e3 : body.length + (0 + 1 + 1) + 1 - 1 = (body.length + 1) + 1 := by omega
  rw [e1, e2, e3]
  have t1 : (body ++ [lo, hi]).take body.length = body := by simp
  rw [t1]
  have g5 : (stx :: (body ++ [lo, hi])).getD 5 0 = body.getD 4 0 := by
    simp [List.getD_cons_succ, List.getElem?_append_left (show 4 < body.length by omega)]
  have g1 : (stx :: (body ++ [lo, hi])).getD (body.length + 1) 0 = lo := by
    rw [List.getD_cons_succ, List.getD_eq_getElem?_getD,
      List.getElem?_append_right (Nat.le_refl body.length)]
    simp
  have g2 : (stx :: (body ++ [lo, hi])).getD (body.length + 1 + 1) 0 = hi := by
    rw [List.getD_cons_succ, List.getD_eq_getElem?_getD,
      List.getElem?_append_right (Nat.le_succ body.length)]
    simp
  rw [g5, g1, g2]

/-- Claim C4: a frame built by `send_mavlink_message` (message id below 256,
payload of the table length, payload bytes below 256) is accepted by the
receiver check, and replacing the length byte (index 1) or any payload byte
(index `6 .. 5+L`) by a different byte value, every other byte and the trailer
left as they are, gives a frame whose recomputed checksum differs from the
trailer, so the check rejects it. -/
theorem single_byte_change_rejected (lengths crcs : Nat → Nat) (msgid : Nat)
    (msg : List Nat) (component_ID : Nat)
    (hid : msgid < 256) (hlen : msg.length = lengths msgid % 256)
    (hbytes : ∀ x ∈ msg, x < 256)
    (i b : Nat) (hi : i = 1 ∨ (6 ≤ i ∧ i < 6 + lengths msgid % 256))
    (hb : b < 256)
    (hne : (send_mavlink_message lengths crcs msgid msg component_ID).getD i 0 ≠ b) :
    frame_accepted crcs (send_mavlink_message lengths crcs msgid msg component_ID) = true ∧
    frame_accepted crcs
      ((send_mavlink_message lengths crcs msgid msg component_ID).set i b) = false := by
  have hm : msgid % 256 = msgid := Nat.mod_eq_of_lt hid
  have hlen2 : msg.length = lengths (msgid % 256) % 256 := by
    rw [hm]
    exact hlen
  have hs := frame_shape lengths crcs msgid msg component_ID hlen2
  rw [hm] at hs
  have hfold : crc_accumulate_buffer crc_init ([lengths msgid % 256, 100, 0, 0, msgid] ++ msg)
        (5 + lengths msgid % 256)
      = ([lengths msgid % 256, 100, 0, 0, msgid] ++ msg).foldl
          (fun crc data => crc_accumulate data crc) crc_init := by
    unfold crc_accumulate_buffer
    congr 1
    have hl : ([lengths msgid % 256, 100, 0, 0, msgid] ++ msg).length
        = 5 + lengths msgid % 256 := by
      simp [hlen]
      omega
    rw [← hl, List.take_length]
  rw [hfold] at hs
  rw [hs] at hne ⊢
  -- the body of the frame: length byte through end of payload
  set body := [lengths msgid % 256, 100, 0, 0, msgid] ++ msg with hbody
  have hbl : body.length = 5 + lengths msgid % 256 := by
    simp [hbody, hlen]
    omega
  have hbb : ∀ x ∈ body, x < 256 := by
    intro x hx
    simp only [hbody, List.mem_append, List.mem_cons, List.mem_singleton] at hx
    rcases hx with (h | h | h | h | h | h) | h
    · rw [h]
      exact Nat.mod_lt _ (by norm_num)
    · omega
    · omega
    · omega
    · omega
    · simp at h
    · exact hbytes x h
  have hg4 : body.getD 4 0 = msgid := by simp [hbody]
  have hinit : crc_init < 65536 := by decide
  set crc := crc_accumulate (crcs msgid % 256)
    (body.foldl (fun crc data => crc_accumulate data crc) crc_init) with hcrc
  have hlt : crc < 65536 := crc_accumulate_lt _ _
  have hhi : crc / 256 % 256 = crc / 256 := Nat.mod_eq_of_lt (by omega)
  have hframe :
      [254, lengths msgid % 256, 100, 0, 0, msgid] ++ msg ++ [crc % 256, crc / 256 % 256]
        = 254 :: (body ++ [crc % 256, crc / 256]) := by
    rw [hhi]
    simp [hbody]
  rw [hframe] at hne ⊢
  constructor
  · rw [frame_accepted_cons crcs 254 body _ _ (by omega), hg4]
    simp [← hcrc]
  · obtain ⟨j, rfl⟩ : ∃ j, i = j + 1 := ⟨i - 1, by omega⟩
    have hj : j < body.length := by omega
    have hj4 : j ≠ 4 := by omega
    rw [List.set_cons_succ, List.set_append_left _ _ hj]
    have hg4b : (body.set j b).getD 4 0 = msgid := by
      rw [List.getD_eq_getElem?_getD, List.getElem?_set_ne hj4,
        ← List.getD_eq_getElem?_getD, hg4]
    rw [frame_accepted_cons crcs 254 (body.set j b) _ _ (by simp; omega), hg4b]
    have hnej : b ≠ body.getD j 0 := by
      intro h
      apply hne
      rw [List.getD_cons_succ, List.getD_eq_getElem?_getD, List.getElem?_append_left hj,
        ← List.getD_eq_getElem?_getD, h]
    have h1 := crc_fold_set_ne body hbb crc_init hinit j hj b hb hnej
    have h2 : crc_accumulate (crcs msgid % 256)
          ((body.set j b).foldl (fun crc data => crc_accumulate data crc) crc_init)
          ≠ crc := by
      intro h
      apply h1
      exact crc_accumulate_inj_crc _ _ _ (Nat.mod_lt _ (by norm_num))
        (crc_fold_lt _ _ hinit) (crc_fold_lt _ _ hinit) h
    have h3 := crc_accumulate_lt (crcs msgid % 256)
          ((body.set j b).foldl (fun crc data => crc_accumulate data crc) crc_init)
    generalize crc_accumulate (crcs msgid % 256)
          ((body.set j b).foldl (fun crc data => crc_accumulate data crc) crc_init)
          = crc2 at h2 h3 ⊢
    rw [Bool.and_eq_false_iff]
    by_cases hlo : crc % 256 = crc2 % 256
    · right
      simp only [beq_eq_false_iff_ne, ne_eq]
      omega
    · left
      simpa using hlo

/-- Claim C4 at a HIL_GPS frame with a zero payload: the frame is accepted, and
with payload byte 0 (index 6) changed from 0 to 1 it is rejected. -/
theorem single_byte_change_rejected_example :
    frame_accepted hil_message_crcs
      (send_mavlink_message hil_message_lengths hil_message_crcs 113
        (List.replicate 36 0) 200) = true ∧
    frame_accepted hil_message_crcs
      ((send_mavlink_message hil_message_lengths hil_message_crcs 113
        (List.replicate 36 0) 200).set 6 1) = false :=
  single_byte_change_rejected hil_message_lengths hil_message_crcs 113
    (List.replicate 36 0) 200 (by decide) (by decide)
    (fun x hx => by rw [List.eq_of_mem_replicate hx]; decide)
    6 1 (Or.inr ⟨by decide, by decide⟩) (by decide) (by decide)

/-! ## Control decoding -/

section
variable {α : Type} [LinearOrderedField α]

/-- Claim C1: with `_rotor_count = 4`, decoding a HIL_CONTROLS message in
`handle_message` overwrites the actuator command with exactly the four entries
`control[i] * 150 + 600`, `i = 0 .. 3`, whatever the values of the eight
channels (nothing is clamped, and `aux1 .. aux4` do not occur in the result);
`HilControlCallback` does the same for a `HilControl` message when it decodes,
that is when the structured transport is in use. -/
theorem control_to_actuator_command (E : Deps α) (self : GazeboMavlinkInterface α)
    (msg : mavlink_message_t) (rmsg : HilControl α)
    (h4 : self._rotor_count = 4) (hid : msg.msgid = MAVLINK_MSG_ID_HIL_CONTROLS) :
    (self.handle_message E msg).input_reference_
      = [(E.mavlink_msg_hil_controls_decode msg).roll_ailerons * 150 + 600,
         (E.mavlink_msg_hil_controls_decode msg).pitch_elevator * 150 + 600,
         (E.mavlink_msg_hil_controls_decode msg).yaw_rudder * 150 + 600,
         (E.mavlink_msg_hil_controls_decode msg).throttle * 150 + 600] ∧
    (self.use_mavlink_udp = false →
      (self.HilControlCallback rmsg).input_reference_
        = [rmsg.roll_ailerons * 150 + 600, rmsg.pitch_elevator * 150 + 600,
           rmsg.yaw_rudder * 150 + 600, rmsg.throttle * 150 + 600]) := by
  constructor
  · unfold GazeboMavlinkInterface.handle_message
    simp [hid, h4, List.range_succ]
  · intro hudp
    unfold GazeboMavlinkInterface.HilControlCallback
    simp [hudp, h4, List.range_succ]

/-- Claim C1 at the example vector: roll 0.1, throttle 0.5 and every other
channel 0 give the actuator command `[615, 600, 600, 675]`, from a HIL_CONTROLS
frame and from a `HilControl` message. -/
theorem control_to_actuator_command_example :
    ((loaded_bridge true).handle_message exampleDepsQ example_controls_message).input_reference_
      = [615, 600, 600, 675] ∧
    ((loaded_bridge false).HilControlCallback example_HilControl).input_reference_
      = [615, 600, 600, 675] := by
  have h := control_to_actuator_command exampleDepsQ (loaded_bridge true)
    example_controls_message example_HilControl rfl rfl
  have h' := control_to_actuator_command exampleDepsQ (loaded_bridge false)
    example_controls_message example_HilControl rfl rfl
  constructor
  · rw [h.1]
    norm_num [exampleDepsQ, exampleDeps, example_controls]
  · rw [h'.2 rfl]
    norm_num [example_HilControl]

/-! ## What each call does to the armed flag and to the GPS gate -/

theorem handle_message_armed (E : Deps α) (self : GazeboMavlinkInterface α)
    (msg : mavlink_message_t) :
    (self.handle_message E msg).received_first_referenc_
      = (self.received_first_referenc_ || msg.msgid == MAVLINK_MSG_ID_HIL_CONTROLS) := by
  unfold GazeboMavlinkInterface.handle_message
  by_cases h : msg.msgid = MAVLINK_MSG_ID_HIL_CONTROLS <;> simp [h]

theorem handle_message_frame (E : Deps α) (self : GazeboMavlinkInterface α)
    (msg : mavlink_message_t) :
    (self.handle_message E msg).use_mavlink_udp = self.use_mavlink_udp ∧
    (self.handle_message E msg).last_gps_time_ = self.last_gps_time_ ∧
    (self.handle_message E msg).gps_update_interval_ = self.gps_update_interval_ := by
  unfold GazeboMavlinkInterface.handle_message
  by_cases h : msg.msgid = MAVLINK_MSG_ID_HIL_CONTROLS <;> simp [h]

theorem poll_armed (E : Deps α) (received : List mavlink_message_t)
    (self : GazeboMavlinkInterface α) :
    (self.pollForMAVLinkMessages E received).received_first_referenc_
      = (self.received_first_referenc_ ||
          received.any (fun msg => msg.msgid == MAVLINK_MSG_ID_HIL_CONTROLS)) := by
  unfold GazeboMavlinkInterface.pollForMAVLinkMessages
  induction received generalizing self with
  | nil => simp
  | cons m ms ih =>
    rw [List.foldl_cons, ih, handle_message_armed, List.any_cons, Bool.or_assoc]

theorem poll_frame (E : Deps α) (received : List mavlink_message_t)
    (self : GazeboMavlinkInterface α) :
    (self.pollForMAVLinkMessages E received).use_mavlink_udp = self.use_mavlink_udp ∧
    (self.pollForMAVLinkMessages E received).last_gps_time_ = self.last_gps_time_ ∧
    (self.pollForMAVLinkMessages E received).gps_update_interval_
      = self.gps_update_interval_ := by
  unfold GazeboMavlinkInterface.pollForMAVLinkMessages
  induction received generalizing self with
  | nil => simp
  | cons m ms ih =>
    rw [List.foldl_cons]
    obtain ⟨h1, h2, h3⟩ := ih (self.handle_message E m)
    obtain ⟨g1, g2, g3⟩ := handle_message_frame E self m
    exact ⟨h1.trans g1, h2.trans g2, h3.trans g3⟩

/-- `ImuCallback` leaves the state alone and hands out one HIL_SENSOR payload,
whatever the armed flag. -/
theorem ImuCallback_published (E : Deps α) (self : GazeboMavlinkInterface α)
    (imu_message : Imu α) (world : World α) :
    (self.ImuCallback E imu_message world).1 = self ∧
    (self.ImuCallback E imu_message world).2.filterMap Published.hilSensor
      = [hil_sensor_msg E self imu_message world] ∧
    ∀ o ∈ (self.ImuCallback E imu_message world).2,
      o.isMotorSpeed = false ∧ o.hilGps = none := by
  unfold GazeboMavlinkInterface.ImuCallback
  split_ifs <;> simp [Published.hilSensor, Published.isMotorSpeed, Published.hilGps]

end

section
variable {α : Type} [LinearOrderedField α] [FloorRing α]

theorem OnUpdate_state (E : Deps α) (self : GazeboMavlinkInterface α)
    (received : List mavlink_message_t) (world : World α) :
    (self.OnUpdate E received world).1.received_first_referenc_
      = (self.received_first_referenc_ ||
          received.any (fun msg => msg.msgid == MAVLINK_MSG_ID_HIL_CONTROLS)) ∧
    (self.OnUpdate E received world).1.use_mavlink_udp = self.use_mavlink_udp := by
  have ha := poll_armed E received self
  have hf := (poll_frame E received self).1
  unfold GazeboMavlinkInterface.OnUpdate
  simp only
  split_ifs <;> simp_all

/-- The early return of `OnUpdate`: nothing is published while unarmed. -/
theorem OnUpdate_unarmed (E : Deps α) (self : GazeboMavlinkInterface α)
    (received : List mavlink_message_t) (world : World α)
    (h : (self.received_first_referenc_ ||
          received.any (fun msg => msg.msgid == MAVLINK_MSG_ID_HIL_CONTROLS)) = false) :
    (self.OnUpdate E received world).2 = [] := by
  have ha := poll_armed E received self
  rw [h] at ha
  unfold GazeboMavlinkInterface.OnUpdate
  simp [ha]

theorem step_state (E : Deps α) (self : GazeboMavlinkInterface α) (e : Event α) :
    (self.step E e).1.received_first_referenc_
      = (self.received_first_referenc_ || e.decodesControl self.use_mavlink_udp) ∧
    (self.step E e).1.use_mavlink_udp = self.use_mavlink_udp := by
  cases e with
  | OnUpdate received world => exact OnUpdate_state E self received world
  | HilControlCallback rmsg =>
    simp only [GazeboMavlinkInterface.step, Event.decodesControl,
      GazeboMavlinkInterface.HilControlCallback]
    cases h : self.use_mavlink_udp <;> simp [h]
  | ImuCallback imu world =>
    simp only [GazeboMavlinkInterface.step, Event.decodesControl,
      GazeboMavlinkInterface.ImuCallback]
    split_ifs <;> simp

theorem run_state (E : Deps α) (es : List (Event α)) (self : GazeboMavlinkInterface α) :
    (self.run E es).1.received_first_referenc_
      = (self.received_first_referenc_ ||
          es.any (fun e => e.decodesControl self.use_mavlink_udp)) ∧
    (self.run E es).1.use_mavlink_udp = self.use_mavlink_udp := by
  induction es generalizing self with
  | nil => simp [GazeboMavlinkInterface.run]
  | cons e es ih =>
    obtain ⟨h1, h2⟩ := ih (self.step E e).1
    obtain ⟨g1, g2⟩ := step_state E self e
    simp only [GazeboMavlinkInterface.run]
    rw [h1, h2, g1, g2, List.any_cons, Bool.or_assoc]
    exact ⟨rfl, rfl⟩

theorem step_unarmed_published (E : Deps α) (self : GazeboMavlinkInterface α)
    (e : Event α) (h0 : self.received_first_referenc_ = false)
    (hno : e.decodesControl self.use_mavlink_udp = false) :
    ((self.step E e).2.filterMap Published.hilSensor).length = (if e.isImu then 1 else 0) ∧
    ∀ o ∈ (self.step E e).2, o.isMotorSpeed = false ∧ o.hilGps = none := by
  cases e with
  | OnUpdate received world =>
    have h := OnUpdate_unarmed E self received world (by
      simp only [Event.decodesControl] at hno
      rw [h0, hno]
      rfl)
    simp [GazeboMavlinkInterface.step, h, Event.isImu]
  | HilControlCallback rmsg => simp [GazeboMavlinkInterface.step, Event.isImu]
  | ImuCallback imu world =>
    obtain ⟨_, h2, h3⟩ := ImuCallback_published E self imu world
    simp only [GazeboMavlinkInterface.step, Event.isImu]
    exact ⟨by rw [h2]; rfl, h3⟩

/-- While unarmed and with no control frame decoded, the only things published
are the HIL_SENSOR payloads of the `ImuCallback` calls, one for each call. -/
theorem run_unarmed_published (E : Deps α) (es : List (Event α))
    (self : GazeboMavlinkInterface α) (h0 : self.received_first_referenc_ = false)
    (hno : ∀ e ∈ es, e.decodesControl self.use_mavlink_udp = false) :
    ((self.run E es).2.filterMap Published.hilSensor).length
      = (es.filter Event.isImu).length ∧
    ∀ o ∈ (self.run E es).2, o.isMotorSpeed = false ∧ o.hilGps = none := by
  induction es generalizing self with
  | nil => simp [GazeboMavlinkInterface.run]
  | cons e es ih =>
    have he := hno e (List.mem_cons_self _ _)
    obtain ⟨g1, g2⟩ := step_state E self e
    obtain ⟨s1, s2⟩ := step_unarmed_published E self e h0 he
    have h0n : (self.step E e).1.received_first_referenc_ = false := by
      rw [g1, h0, he]
      rfl
    obtain ⟨i1, i2⟩ := ih (self.step E e).1 h0n (by
      intro x hx
      rw [g2]
      exact hno x (List.mem_cons_of_mem _ hx))
    simp only [GazeboMavlinkInterface.run, List.filterMap_append, List.length_append,
      List.mem_append]
    constructor
    · rw [s1, i1, List.filter_cons]
      split_ifs <;> simp [Nat.add_comm]
    · rintro o (ho | ho)
      · exact s2 o ho
      · exact i2 o ho

/-! ## Arming -/

/-- Claim C2: from an unarmed state, over every sequence of bridge calls
(`OnUpdate` with the messages its poll completes, `HilControlCallback`,
`ImuCallback`): as long as no call decodes a control frame the armed flag
`received_first_referenc_` is false and no motor-speed command is published;
once some call of the sequence has decoded a control frame the flag is true at
the end, whatever calls follow. -/
theorem arming_invariant (E : Deps α) (self : GazeboMavlinkInterface α)
    (h0 : self.received_first_referenc_ = false) (es : List (Event α)) :
    ((∀ e ∈ es, e.decodesControl self.use_mavlink_udp = false) →
      (self.run E es).1.received_first_referenc_ = false ∧
      ∀ o ∈ (self.run E es).2, o.isMotorSpeed = false) ∧
    ((∃ e ∈ es, e.decodesControl self.use_mavlink_udp = true) →
      (self.run E es).1.received_first_referenc_ = true) := by
  have hr := (run_state E es self).1
  constructor
  · intro hno
    constructor
    · rw [hr, h0, Bool.false_or, List.any_eq_false]
      intro e he
      simp [hno e he]
    · intro o ho
      exact ((run_unarmed_published E es self h0 hno).2 o ho).1
  · rintro ⟨e, he, hd⟩
    rw [hr, Bool.or_eq_true]
    right
    exact List.any_eq_true.mpr ⟨e, he, hd⟩

/-- Claim C2 on two runs of a freshly loaded bridge: an update without input
and an IMU sample leave it unarmed and publish no motor speeds; an update that
receives a HIL_CONTROLS frame, followed by two more calls, leaves it armed. -/
theorem arming_invariant_example :
    (((loaded_bridge true).run exampleDepsQ
        [Event.OnUpdate [] (example_world 0),
         Event.ImuCallback example_imu (example_world 0)]).1.received_first_referenc_ = false ∧
      ∀ o ∈ ((loaded_bridge true).run exampleDepsQ
        [Event.OnUpdate [] (example_world 0),
         Event.ImuCallback example_imu (example_world 0)]).2, o.isMotorSpeed = false) ∧
    ((loaded_bridge true).run exampleDepsQ
        [Event.OnUpdate [example_controls_message] (example_world 0),
         Event.ImuCallback example_imu (example_world 1000000),
         Event.OnUpdate [] (example_world 2000000)]).1.received_first_referenc_ = true :=
  ⟨(arming_invariant exampleDepsQ (loaded_bridge true) rfl
      [Event.OnUpdate [] (example_world 0),
       Event.ImuCallback example_imu (example_world 0)]).1
      (by
        intro e he
        simp only [List.mem_cons, List.mem_singleton, List.not_mem_nil, or_false] at he
        rcases he with rfl | rfl <;> rfl),
   (arming_invariant exampleDepsQ (loaded_bridge true) rfl
      [Event.OnUpdate [example_controls_message] (example_world 0),
       Event.ImuCallback example_imu (example_world 1000000),
       Event.OnUpdate [] (example_world 2000000)]).2
      ⟨_, List.mem_cons_self _ _, rfl⟩⟩

/-! ## Telemetry while unarmed -/

/-- `OnUpdate` never hands out a HIL_SENSOR payload. -/
theorem OnUpdate_no_sensor (E : Deps α) (self : GazeboMavlinkInterface α)
    (received : List mavlink_message_t) (world : World α) :
    (self.OnUpdate E received world).2.filterMap Published.hilSensor = [] := by
  unfold GazeboMavlinkInterface.OnUpdate
  simp only
  split_ifs <;> simp [Published.hilSensor]

theorem step_sensor_count (E : Deps α) (self : GazeboMavlinkInterface α) (e : Event α) :
    ((self.step E e).2.filterMap Published.hilSensor).length
      = (if e.isImu then 1 else 0) := by
  cases e with
  | OnUpdate received world =>
    simp [GazeboMavlinkInterface.step, OnUpdate_no_sensor, Event.isImu]
  | HilControlCallback rmsg => simp [GazeboMavlinkInterface.step, Event.isImu]
  | ImuCallback imu world =>
    obtain ⟨_, h2, _⟩ := ImuCallback_published E self imu world
    simp only [GazeboMavlinkInterface.step, Event.isImu]
    rw [h2]
    rfl

/-- In every state, armed or not, a run publishes one HIL_SENSOR payload for
each `ImuCallback` call and no other. -/
theorem run_sensor_count (E : Deps α) (es : List (Event α))
    (self : GazeboMavlinkInterface α) :
    ((self.run E es).2.filterMap Published.hilSensor).length
      = (es.filter Event.isImu).length := by
  induction es generalizing self with
  | nil => simp [GazeboMavlinkInterface.run]
  | cons e es ih =>
    simp only [GazeboMavlinkInterface.run, List.filterMap_append, List.length_append]
    rw [step_sensor_count, ih, List.filter_cons]
    split_ifs <;> simp [Nat.add_comm]

/-- Claim C6 as amended: from an unarmed state, over every sequence of bridge
calls none of which decodes a control frame, no HIL_GPS payload and no
motor-speed command is sent or published on either transport.  HIL_SENSOR is
not gated by the armed flag: from every state, armed or not, every
`ImuCallback` call sends or publishes exactly one HIL_SENSOR payload, and a
sequence of calls publishes exactly one for each of its `ImuCallback` calls. -/
theorem unarmed_suppresses_gps_not_sensor (E : Deps α)
    (self : GazeboMavlinkInterface α) (es : List (Event α)) :
    (self.received_first_referenc_ = false →
      (∀ e ∈ es, e.decodesControl self.use_mavlink_udp = false) →
      ∀ o ∈ (self.run E es).2, o.hilGps = none ∧ o.isMotorSpeed = false) ∧
    (∀ (imu_message : Imu α) (world : World α),
      ((self.ImuCallback E imu_message world).2.filterMap Published.hilSensor).length = 1) ∧
    ((self.run E es).2.filterMap Published.hilSensor).length
      = (es.filter Event.isImu).length := by
  refine ⟨?_, ?_, run_sensor_count E es self⟩
  · intro h0 hno o ho
    obtain ⟨_, h2⟩ := run_unarmed_published E es self h0 hno
    exact ⟨(h2 o ho).2, (h2 o ho).1⟩
  · intro imu_message world
    rw [(ImuCallback_published E self imu_message world).2.1]
    rfl

/-- Claim C6 as amended, on two runs.  A freshly loaded bridge that sees an
update without input and then two IMU samples publishes no GPS payload, no
motor speeds and two HIL_SENSOR payloads; a bridge armed by a HIL_CONTROLS
frame publishes one HIL_SENSOR payload on its next IMU sample. -/
theorem unarmed_suppresses_gps_not_sensor_example :
    ((∀ o ∈ ((loaded_bridge true).run exampleDepsQ
        [Event.OnUpdate [] (example_world 0),
         Event.ImuCallback example_imu (example_world 0),
         Event.ImuCallback example_imu (example_world 1000000)]).2,
      o.hilGps = none ∧ o.isMotorSpeed = false) ∧
    (((loaded_bridge true).run exampleDepsQ
        [Event.OnUpdate [] (example_world 0),
         Event.ImuCallback example_imu (example_world 0),
         Event.ImuCallback example_imu (example_world 1000000)]).2.filterMap
        Published.hilSensor).length = 2) ∧
    ((((loaded_bridge true).handle_message exampleDepsQ
        example_controls_message).ImuCallback exampleDepsQ example_imu
          (example_world 0)).2.filterMap Published.hilSensor).length = 1 :=
  ⟨⟨(unarmed_suppresses_gps_not_sensor exampleDepsQ (loaded_bridge true)
      [Event.OnUpdate [] (example_world 0),
       Event.ImuCallback example_imu (example_world 0),
       Event.ImuCallback example_imu (example_world 1000000)]).1 rfl
      (by
        intro e he
        simp only [List.mem_cons, List.mem_singleton, List.not_mem_nil, or_false] at he
        rcases he with rfl | rfl | rfl <;> rfl),
    (unarmed_suppresses_gps_not_sensor exampleDepsQ (loaded_bridge true)
      [Event.OnUpdate [] (example_world 0),
       Event.ImuCallback example_imu (example_world 0),
       Event.ImuCallback example_imu (example_world 1000000)]).2.2⟩,
   (unarmed_suppresses_gps_not_sensor exampleDepsQ
      ((loaded_bridge true).handle_message exampleDepsQ example_controls_message)
      []).2.1 example_imu (example_world 0)⟩

/-- Claim C6 fails as stated: a freshly loaded, unarmed bridge that has decoded
no control frame publishes a HIL_SENSOR payload on its first `ImuCallback`, on
the UDP transport and on the structured transport alike. -/
theorem unarmed_sensor_counterexample :
    ((loaded_bridge true).received_first_referenc_ = false ∧
      (((loaded_bridge true).run exampleDepsQ
        [Event.ImuCallback example_imu (example_world 0)]).2.filterMap
          Published.hilSensor).length = 1) ∧
    ((loaded_bridge false).received_first_referenc_ = false ∧
      (((loaded_bridge false).run exampleDepsQ
        [Event.ImuCallback example_imu (example_world 0)]).2.filterMap
          Published.hilSensor).length = 1) := by
  decide

/-! ## The GPS gate -/

/-- On normalised times the gate `current_time - last_gps_time_ > gps_update`
compares the instants strictly. -/
theorem Time_gate_ofNs (a b p : Int) :
    ((common.Time.ofNs a).sub (common.Time.ofNs b)).gt (common.Time.ofNs p)
      = decide (p < a - b) := by
  have h : ∀ n : Int, (common.Time.ofNs n).toNs = n := by
    intro n
    simp only [common.Time.ofNs, common.Time.toNs]
    omega
  simp only [common.Time.sub, h]
  simp only [common.Time.gt, common.Time.ofNs]
  apply decide_eq_decide.mpr
  omega

theorem OnUpdate_armed (E : Deps α) (self : GazeboMavlinkInterface α)
    (received : List mavlink_message_t) (world : World α)
    (h : self.received_first_referenc_ = true) :
    (self.OnUpdate E received world).1.received_first_referenc_ = true ∧
    (self.OnUpdate E received world).1.gps_update_interval_ = self.gps_update_interval_ ∧
    (if (world.SimTime.sub self.last_gps_time_).gt (E.Time_of_double self.gps_update_interval_)
      then (self.OnUpdate E received world).1.last_gps_time_ = world.SimTime ∧
        ((self.OnUpdate E received world).2.filterMap Published.hilGps).length = 1
      else (self.OnUpdate E received world).1.last_gps_time_ = self.last_gps_time_ ∧
        (self.OnUpdate E received world).2.filterMap Published.hilGps = []) := by
  have ha := poll_armed E received self
  rw [h, Bool.true_or] at ha
  obtain ⟨_, hf2, hf3⟩ := poll_frame E received self
  unfold GazeboMavlinkInterface.OnUpdate
  simp only [ha, hf2, hf3, Bool.not_true, Bool.false_eq_true, if_false]
  split_ifs <;> simp [Published.hilGps, ha, hf2, hf3]

theorem OnUpdate_gate_closed (E : Deps α) (self : GazeboMavlinkInterface α)
    (received : List mavlink_message_t) (world : World α) (a b p : Int)
    (h : self.received_first_referenc_ = true)
    (hlast : self.last_gps_time_ = common.Time.ofNs b)
    (hper : E.Time_of_double self.gps_update_interval_ = common.Time.ofNs p)
    (hnow : world.SimTime = common.Time.ofNs a) (hgate : a - b ≤ p) :
    (self.OnUpdate E received world).1.received_first_referenc_ = true ∧
    (self.OnUpdate E received world).1.last_gps_time_ = common.Time.ofNs b ∧
    E.Time_of_double (self.OnUpdate E received world).1.gps_update_interval_
      = common.Time.ofNs p ∧
    (self.OnUpdate E received world).2.filterMap Published.hilGps = [] := by
  obtain ⟨h1, h2, h3⟩ := OnUpdate_armed E self received world h
  rw [hlast, hper, hnow, Time_gate_ofNs, if_neg (by simp; omega)] at h3
  exact ⟨h1, h3.1, by rw [h2, hper], h3.2⟩

theorem OnUpdate_gate_open (E : Deps α) (self : GazeboMavlinkInterface α)
    (received : List mavlink_message_t) (world : World α) (a b p : Int)
    (h : self.received_first_referenc_ = true)
    (hlast : self.last_gps_time_ = common.Time.ofNs b)
    (hper : E.Time_of_double self.gps_update_interval_ = common.Time.ofNs p)
    (hnow : world.SimTime = common.Time.ofNs a) (hgate : p < a - b) :
    (self.OnUpdate E received world).1.last_gps_time_ = common.Time.ofNs a ∧
    ((self.OnUpdate E received world).2.filterMap Published.hilGps).length = 1 := by
  obtain ⟨_, _, h3⟩ := OnUpdate_armed E self received world h
  rw [hlast, hper, hnow, Time_gate_ofNs, if_pos (by simp; omega)] at h3
  exact h3

/-- Claim C5 as amended: the emission condition is the strict
`now - last_sent > P`.  For every GPS period `P > 0` and start time `t0` with
last-sent GPS time `t0`, the armed bridge stepped at `t0`, `t0 + P/2` and
`t0 + P` (times in nanoseconds, any received messages, any pose and velocity)
emits no GPS payload; a further step at any time later than `t0 + P` emits
exactly one. -/
theorem gps_gate_is_strict (E : Deps α) (self : GazeboMavlinkInterface α)
    (t0 P t3 : Int) (hP : 0 < P) (ht3 : t0 + P < t3)
    (harmed : self.received_first_referenc_ = true)
    (hlast : self.last_gps_time_ = common.Time.ofNs t0)
    (hper : E.Time_of_double self.gps_update_interval_ = common.Time.ofNs P)
    (r0 r1 r2 r3 : List mavlink_message_t) (w0 w1 w2 w3 : World α) :
    (self.run E
      [Event.OnUpdate r0 { w0 with SimTime := common.Time.ofNs t0 },
       Event.OnUpdate r1 { w1 with SimTime := common.Time.ofNs (t0 + P / 2) },
       Event.OnUpdate r2 { w2 with SimTime := common.Time.ofNs (t0 + P) }]).2.filterMap
        Published.hilGps = [] ∧
    ((self.run E
      [Event.OnUpdate r0 { w0 with SimTime := common.Time.ofNs t0 },
       Event.OnUpdate r1 { w1 with SimTime := common.Time.ofNs (t0 + P / 2) },
       Event.OnUpdate r2 { w2 with SimTime := common.Time.ofNs (t0 + P) },
       Event.OnUpdate r3 { w3 with SimTime := common.Time.ofNs t3 }]).2.filterMap
        Published.hilGps).length = 1 := by
  obtain ⟨a1, l1, i1, o1⟩ := OnUpdate_gate_closed E self r0
    { w0 with SimTime := common.Time.ofNs t0 } t0 t0 P harmed hlast hper rfl (by omega)
  obtain ⟨a2, l2, i2, o2⟩ := OnUpdate_gate_closed E _ r1
    { w1 with SimTime := common.Time.ofNs (t0 + P / 2) } (t0 + P / 2) t0 P a1 l1 i1 rfl
    (by omega)
  obtain ⟨a3, l3, i3, o3⟩ := OnUpdate_gate_closed E _ r2
    { w2 with SimTime := common.Time.ofNs (t0 + P) } (t0 + P) t0 P a2 l2 i2 rfl (by omega)
  obtain ⟨_, o4⟩ := OnUpdate_gate_open E _ r3
    { w3 with SimTime := common.Time.ofNs t3 } t3 t0 P a3 l3 i3 rfl (by omega)
  simp only [GazeboMavlinkInterface.run, GazeboMavlinkInterface.step, List.filterMap_append,
    List.append_nil, List.filterMap_nil, List.length_append]
  rw [o1, o2, o3]
  exact ⟨rfl, by simpa using o4⟩

/-- Claim C5 as amended, with `t0 = 0` and a period of 200 ms on a bridge armed
right after `Load`: the steps at 0, 100 ms and 200 ms emit no GPS payload, and
a step one nanosecond after 200 ms emits one. -/
theorem gps_gate_is_strict_example :
    (((loaded_bridge true).handle_message exampleDepsQ example_controls_message).run
        exampleDepsQ
        [Event.OnUpdate [] (example_world 0), Event.OnUpdate [] (example_world 100000000),
         Event.OnUpdate [] (example_world 200000000)]).2.filterMap Published.hilGps = [] ∧
    ((((loaded_bridge true).handle_message exampleDepsQ example_controls_message).run
        exampleDepsQ
        [Event.OnUpdate [] (example_world 0), Event.OnUpdate [] (example_world 100000000),
         Event.OnUpdate [] (example_world 200000000),
         Event.OnUpdate [] (example_world 200000001)]).2.filterMap
        Published.hilGps).length = 1 :=
  gps_gate_is_strict exampleDepsQ
    ((loaded_bridge true).handle_message exampleDepsQ example_controls_message)
    0 200000000 200000001 (by decide) (by decide) rfl rfl rfl [] [] [] []
    (example_world 0) (example_world 0) (example_world 0) (example_world 0)

/-- Claim C5 fails as stated: with `t0 = 0`, last-sent GPS time 0 and a period
of 200 ms, the armed bridge stepped at 0, 100 ms and 200 ms emits no GPS
payload at all, where the claim has exactly one, at 200 ms. -/
theorem gps_gate_counterexample :
    ((loaded_bridge true).handle_message exampleDepsQ
        example_controls_message).received_first_referenc_ = true ∧
    ((loaded_bridge true).handle_message exampleDepsQ
        example_controls_message).last_gps_time_ = common.Time.ofNs 0 ∧
    ((((loaded_bridge true).handle_message exampleDepsQ example_controls_message).run
        exampleDepsQ
        [Event.OnUpdate [] (example_world 0), Event.OnUpdate [] (example_world 100000000),
         Event.OnUpdate [] (example_world 200000000)]).2.filterMap Published.hilGps).length
      = 0 := by
  decide

/-! ## The GPS payload -/

theorem step_time_usec (E : Deps α) (self : GazeboMavlinkInterface α) (e : Event α)
    (t : common.Time) (o : Published α) (ht : e.SimTime = some t)
    (ho : o ∈ (self.step E e).2) (hm : o.isMotorSpeed = false) :
    o.time_usec = some (hil_time_usec t) := by
  cases e with
  | OnUpdate received world =>
    simp only [Event.SimTime, Option.some.injEq] at ht
    subst ht
    simp only [GazeboMavlinkInterface.step, GazeboMavlinkInterface.OnUpdate] at ho
    split_ifs at ho <;> simp at ho
    · rcases ho with rfl | rfl
      · simp [Published.isMotorSpeed] at hm
      · rfl
    · rcases ho with rfl | rfl
      · simp [Published.isMotorSpeed] at hm
      · rfl
    · subst ho
      simp [Published.isMotorSpeed] at hm
  | HilControlCallback rmsg => simp [Event.SimTime] at ht
  | ImuCallback imu world =>
    simp only [Event.SimTime, Option.some.injEq] at ht
    subst ht
    simp only [GazeboMavlinkInterface.step, GazeboMavlinkInterface.ImuCallback] at ho
    split_ifs at ho <;> simp at ho <;> subst ho <;> rfl

/-- Claim C10 as amended: the `time_usec` field of every HIL_SENSOR and
HIL_GPS payload is the product `nsec * 1000` of the nanosecond component of the
simulation time formed in 32-bit `int` arithmetic and stored into the 64-bit
field: it is exactly `1000 * nsec` only while the product fits an `int` and its
32-bit wrap-around otherwise.  It does not depend on the seconds component: two
telemetry payloads emitted at simulation times with equal nanosecond parts
carry the same `time_usec`, whatever the seconds parts. -/
theorem time_usec_ignores_seconds (E : Deps α) (s1 s2 : GazeboMavlinkInterface α)
    (e1 e2 : Event α) (t1 t2 : common.Time) (o1 o2 : Published α)
    (h1 : e1.SimTime = some t1) (h2 : e2.SimTime = some t2)
    (ho1 : o1 ∈ (s1.step E e1).2) (ho2 : o2 ∈ (s2.step E e2).2)
    (hm1 : o1.isMotorSpeed = false) (hm2 : o2.isMotorSpeed = false)
    (hn : t1.nsec = t2.nsec) :
    o1.time_usec = some (uint64_wrap (int32_wrap (t1.nsec * 1000))) ∧
    o1.time_usec = o2.time_usec ∧
    (0 ≤ t1.nsec → t1.nsec * 1000 < 2147483648 → o1.time_usec = some (1000 * t1.nsec)) := by
  have a1 := step_time_usec E s1 e1 t1 o1 h1 ho1 hm1
  have a2 := step_time_usec E s2 e2 t2 o2 h2 ho2 hm2
  refine ⟨a1, ?_, ?_⟩
  · rw [a1, a2]
    simp only [hil_time_usec, hn]
  · intro hp hlt
    rw [a1]
    have e1 : int32_wrap (t1.nsec * 1000) = t1.nsec * 1000 := by
      unfold int32_wrap
      rw [Int.emod_eq_of_lt (by omega) (by omega)]
      omega
    have e2 : uint64_wrap (t1.nsec * 1000) = t1.nsec * 1000 := by
      unfold uint64_wrap
      exact Int.emod_eq_of_lt (by omega) (by omega)
    rw [hil_time_usec, e1, e2, Int.mul_comm]

/-- Claim C10 as amended, on two IMU samples taken 2 ms after the start of second 0 and
2 ms after the start of second 1: both HIL_SENSOR payloads carry
`time_usec = 2000000000`, so the later one is not larger. -/
theorem time_usec_ignores_seconds_example :
    (Published.hil_sensor_pub
        (hil_sensor_msg exampleDepsQ (loaded_bridge false) example_imu
          { example_world 0 with SimTime := { sec := 0, nsec := 2000000 } })).time_usec
      = some 2000000000 ∧
    (Published.hil_sensor_pub
        (hil_sensor_msg exampleDepsQ (loaded_bridge false) example_imu
          { example_world 0 with SimTime := { sec := 0, nsec := 2000000 } })).time_usec
      = (Published.hil_sensor_pub
        (hil_sensor_msg exampleDepsQ (loaded_bridge false) example_imu
          { example_world 0 with SimTime := { sec := 1, nsec := 2000000 } })).time_usec := by
  have h := time_usec_ignores_seconds exampleDepsQ (loaded_bridge false) (loaded_bridge false)
    (Event.ImuCallback example_imu
      { example_world 0 with SimTime := { sec := 0, nsec := 2000000 } })
    (Event.ImuCallback example_imu
      { example_world 0 with SimTime := { sec := 1, nsec := 2000000 } })
    { sec := 0, nsec := 2000000 } { sec := 1, nsec := 2000000 }
    _ _ rfl rfl (List.mem_singleton_self _) (List.mem_singleton_self _) rfl rfl rfl
  exact ⟨h.2.2 (by decide) (by decide), h.2.1⟩

/-- Claim C10 fails as stated: half a second into a second, `nsec = 500000000`,
the HIL_SENSOR payload (on either transport) and the HIL_GPS payloads carry
`time_usec = 1783793664`, the 32-bit wrap-around of the product, not
`1000 * nsec = 500000000000`. -/
theorem time_usec_counterexample :
    (((loaded_bridge true).ImuCallback exampleDepsQ example_imu
        { example_world 0 with SimTime := { sec := 0, nsec := 500000000 } }).2.filterMap
        Published.time_usec = [1783793664] ∧
      ((loaded_bridge false).ImuCallback exampleDepsQ example_imu
        { example_world 0 with SimTime := { sec := 0, nsec := 500000000 } }).2.filterMap
        Published.time_usec = [1783793664]) ∧
    ((hil_gps_msg_udp exampleDepsQ { sec := 0, nsec := 500000000 }
        { x := 0, y := 0, z := 10 } { x := 0, y := 0, z := 0 }).time_usec = 1783793664 ∧
      (hil_gps_msg_protobuf exampleDepsQ { sec := 0, nsec := 500000000 }
        { x := 0, y := 0, z := 10 } { x := 0, y := 0, z := 0 }).time_usec = 1783793664) ∧
    (1000 * 500000000 : Int) = 500000000000 := by
  decide

end

/-! ## Course over ground with the real `atan2` -/

end gazebo
